import Mathlib

/-!
Verification of the CLI entry point of shell_gpt (`src/sgpt/app.py`).

The file shallowly embeds the `main` function of `app.py` (lines 90-144):
the invocation's command-line flags and environment (stdin, editor result,
confirmation answer) form an `Invocation`; running `main` produces a `Run`,
an ordered trace of observable events (errors raised, editor opened, client
constructed, handler invoked, confirmation prompt, shell execution) together
with how the invocation ends.  The typer option declarations for
`temperature` and `top_probability` (lines 35-45) are embedded as a
validation step `parseAndRun` that runs before `main`, as typer does.
-/

namespace SGpt

/-- Python truthiness of an optional string (`if chat:`, `not repl`, `not prompt`):
`None` and the empty string are falsy, every other string is truthy. -/
def strOptTruthy : Option String → Bool
  | none => false
  | some s => s != ""

/-- The configuration errors `main` can raise (app.py lines 95-105):
click's `MissingParameter` and the three `BadArgumentUsage` cases. -/
inductive ConfigError where
  | missingParameter
  | badShellCode
  | badChatRepl
  | badEditorStdin
deriving DecidableEq, Repr

/-- Whether a configuration error is click's `BadArgumentUsage`
(as opposed to `MissingParameter`). -/
def ConfigError.isBadArgumentUsage : ConfigError → Bool
  | .missingParameter => false
  | .badShellCode => true
  | .badChatRepl => true
  | .badEditorStdin => true

/-- The three Output Handler variants dispatched at app.py lines 114-141. -/
inductive HandlerKind where
  | repl
  | chat
  | default
deriving DecidableEq, Repr

/-- One invocation of `main`: the typer arguments (app.py lines 25-88) plus the
environment it interacts with — whether stdin is a terminal, the piped stdin
text, the text the editor would return, the handler's completion text and the
answer the user would give to `typer.confirm`. -/
structure Invocation where
  promptArg : Option String
  modelName : String
  temperature : ℚ
  topProbability : ℚ
  shell : Bool
  code : Bool
  editor : Bool
  cache : Bool
  chat : Option String
  repl : Option String
  stdinIsTty : Bool
  stdinContent : String
  editedPrompt : String
  completion : String
  confirmAnswer : Bool
deriving DecidableEq, Repr

/-- The observable events of one invocation, in program order. -/
inductive Event where
  | errorRaised (e : ConfigError)
  | editorOpened
  | clientConstructed
  | handlerInvoked (kind : HandlerKind) (prompt : Option String) (modelName : String)
      (temperature topProbability : ℚ) (chatId : Option String) (caching : Bool)
  | confirmShown
  | commandExecuted (command : String)
deriving DecidableEq, Repr

/-- How an invocation of `main` ends: a normal return (process exit 0), a
configuration error (non-zero exit), or inside the interactive loop. -/
inductive Result where
  | ok
  | configError (e : ConfigError)
  | replLoop
deriving DecidableEq, Repr

/-- A run of `main`: its event trace and how it ended. -/
structure Run where
  events : List Event
  result : Result
deriving DecidableEq, Repr

/-- app.py line 90: `stdin_passed = not sys.stdin.isatty()`. -/
def stdinPassed (inv : Invocation) : Bool := !inv.stdinIsTty

/-- app.py lines 92-93: when stdin is piped and `repl` is falsy, the prompt
becomes the stdin text followed by the prompt argument (`prompt or ""`);
otherwise it stays the prompt argument. -/
def effPrompt (inv : Invocation) : Option String :=
  if stdinPassed inv && !strOptTruthy inv.repl then
    some (inv.stdinContent ++ inv.promptArg.getD "")
  else
    inv.promptArg

/-- app.py lines 95-105: the four configuration checks, in source order; the
first failing check determines the raised error. -/
def configCheck (inv : Invocation) : Option ConfigError :=
  if !strOptTruthy (effPrompt inv) && !inv.editor && !strOptTruthy inv.repl then
    some ConfigError.missingParameter
  else if inv.shell && inv.code then
    some ConfigError.badShellCode
  else if strOptTruthy inv.chat && strOptTruthy inv.repl then
    some ConfigError.badChatRepl
  else if inv.editor && stdinPassed inv then
    some ConfigError.badEditorStdin
  else
    none

/-- app.py lines 107-108: when `editor` is set (and no check failed), the
prompt passed on is the editor's result; otherwise the effective prompt. -/
def handlerPrompt (inv : Invocation) : Option String :=
  if inv.editor then some inv.editedPrompt else effPrompt inv

/-- app.py lines 114-141: which handler variant is dispatched — `ReplHandler`
when `repl` is truthy, else `ChatHandler` when `chat` is truthy, else
`DefaultHandler`. -/
def dispatchKind (inv : Invocation) : HandlerKind :=
  if strOptTruthy inv.repl then HandlerKind.repl
  else if strOptTruthy inv.chat then HandlerKind.chat
  else HandlerKind.default

/-- The `chat_id` argument passed to `handle` (app.py lines 121, 131; the
Default handler receives none). -/
def chatIdArg (inv : Invocation) : Option String :=
  if strOptTruthy inv.repl then inv.repl
  else if strOptTruthy inv.chat then inv.chat
  else none

/-- Shallow embedding of `main` (app.py lines 90-144).

Order of the embedded steps matches the source: the stdin/prompt merge
(lines 92-93), the four configuration checks (lines 95-105, each `raise`
aborting the invocation), the editor call (lines 107-108), the
`OpenAIClient` construction (lines 110-112), the handler dispatch
(lines 114-141) and the shell-confirmation block (lines 143-144, guarded by
`shell and not stdin_passed`, executing `run_command` only on an affirmative
answer).

The `ReplHandler.handle` call is Modelled from the spec: the handler classes
are not part of the source under verification, and per the spec's
Interactive Loop (and the source comment at line 115, "Will be in infinite
loop here until user exits with Ctrl+C") the loop ends only by an explicit
exit command or an interrupt, which aborts the invocation — the call does
not return normally, so the code after it is not reached on the repl path. -/
def main (inv : Invocation) : Run :=
  match configCheck inv with
  | some e => ⟨[Event.errorRaised e], Result.configError e⟩
  | none =>
    let pre := (if inv.editor then [Event.editorOpened] else []) ++ [Event.clientConstructed]
    let ev := Event.handlerInvoked (dispatchKind inv) (handlerPrompt inv) inv.modelName
      inv.temperature inv.topProbability (chatIdArg inv) inv.cache
    if strOptTruthy inv.repl then
      ⟨pre ++ [ev], Result.replLoop⟩
    else if inv.shell && !stdinPassed inv then
      if inv.confirmAnswer then
        ⟨pre ++ [ev, Event.confirmShown, Event.commandExecuted inv.completion], Result.ok⟩
      else
        ⟨pre ++ [ev, Event.confirmShown], Result.ok⟩
    else
      ⟨pre ++ [ev], Result.ok⟩

/-- Rejection reasons of the typer option validation (app.py lines 35-45). -/
inductive ParseError where
  | temperatureOutOfRange
  | topProbabilityOutOfRange
deriving DecidableEq, Repr

/-- Embedding of the typer option declarations (app.py lines 35-45):
`temperature` carries `min=0.0, max=1.0` and `top_probability` carries
`min=0.1, max=1.0`; a command-line value outside its range is rejected at
argument parsing, before the body of `main` runs. -/
def parseAndRun (inv : Invocation) : Except ParseError Run :=
  if ¬ (0 ≤ inv.temperature ∧ inv.temperature ≤ 1) then
    Except.error ParseError.temperatureOutOfRange
  else if ¬ (1/10 ≤ inv.topProbability ∧ inv.topProbability ≤ 1) then
    Except.error ParseError.topProbabilityOutOfRange
  else
    Except.ok (main inv)

/-- Whether an event is a handler invocation. -/
def isHandlerEvent : Event → Bool
  | .handlerInvoked .. => true
  | _ => false

/-- Number of Output Handler invocations in a run. -/
def handlerCount (r : Run) : Nat := r.events.countP isHandlerEvent

/-- Invocation with both `shell` and `code` set but no prompt at all:
no prompt argument, stdin a terminal, no editor, no chat, no repl. -/
def invC1x : Invocation :=
  ⟨none, "gpt-3.5-turbo", 1/10, 1, true, true, false, true, none, none, true, "", "", "", false⟩

/-- Invocation with both `shell` and `code` set and a prompt argument. -/
def invC1w : Invocation :=
  ⟨some "list files", "gpt-3.5-turbo", 1/10, 1, true, true, false, true, none, none, true, "",
    "", "", false⟩

/-- Invocation with no prompt at all and no mode flags. -/
def invC2x : Invocation :=
  ⟨none, "gpt-3.5-turbo", 1/10, 1, false, false, false, true, none, none, true, "", "", "",
    false⟩

/-- Invocation with a prompt and a chat id. -/
def invC2w : Invocation :=
  ⟨some "hello", "gpt-3.5-turbo", 1/10, 1, false, false, false, true, some "demo", none, true,
    "", "", "", false⟩

/-- Shell-mode invocation on a terminal whose user declines the confirmation. -/
def invC3w : Invocation :=
  ⟨some "list files", "gpt-3.5-turbo", 1/10, 1, true, false, false, true, none, none, true, "",
    "", "ls -la", false⟩

/-- Invocation with no prompt at all and no mode flags. -/
def invC4w : Invocation :=
  ⟨none, "gpt-3.5-turbo", 1/10, 1, false, false, false, true, none, none, true, "", "", "",
    false⟩

/-- Invocation with both a chat id and a repl id. -/
def invC5w : Invocation :=
  ⟨some "hello", "gpt-3.5-turbo", 1/10, 1, false, false, false, true, some "demo",
    some "session", true, "", "", "", false⟩

/-- Invocation with the editor flag while stdin is piped. -/
def invC6w : Invocation :=
  ⟨none, "gpt-3.5-turbo", 1/10, 1, false, false, true, true, none, none, false, "piped text",
    "edited", "", false⟩

/-- Invocation with no prompt argument, stdin a terminal, no editor, no repl. -/
def invC7w : Invocation :=
  ⟨none, "gpt-3.5-turbo", 1/10, 1, false, false, false, true, none, none, true, "", "", "",
    false⟩

/-- Invocation with in-range temperature and top-probability values. -/
def invC8w : Invocation :=
  ⟨some "hello", "gpt-3.5-turbo", 1/10, 1, false, false, false, true, none, none, true, "", "",
    "", false⟩

/-- Invocation with piped stdin text and a prompt argument, no repl. -/
def invC9w : Invocation :=
  ⟨some "explain", "gpt-3.5-turbo", 1/10, 1, false, false, false, true, none, none, false,
    "piped input ", "", "", false⟩

/-- Shell-mode invocation with piped stdin and a user who would confirm. -/
def invC10w : Invocation :=
  ⟨some "list", "gpt-3.5-turbo", 1/10, 1, true, false, false, true, none, none, false, "data",
    "", "ls", true⟩

/-- When a configuration check fails, the run is the single raised error. -/
theorem main_error (inv : Invocation) (e : ConfigError) (h : configCheck inv = some e) :
    main inv = ⟨[Event.errorRaised e], Result.configError e⟩ := by
  simp [main, h]

/-- A configuration-error result comes exactly from a failing configuration check. -/
theorem result_configError (inv : Invocation) (e : ConfigError)
    (h : (main inv).result = Result.configError e) : configCheck inv = some e := by
  cases hc : configCheck inv with
  | some f =>
    rw [main_error inv f hc] at h
    simp_all
  | none =>
    simp only [main, hc] at h
    split_ifs at h

/-- Every handler-invocation event in a run of `main` records the dispatched
kind and the arguments of the single `handle` call, and occurs only when no
configuration check failed. -/
theorem handlerInvoked_mem (inv : Invocation) (k : HandlerKind) (pr : Option String)
    (m : String) (t p : ℚ) (cid : Option String) (ca : Bool)
    (h : Event.handlerInvoked k pr m t p cid ca ∈ (main inv).events) :
    configCheck inv = none ∧ k = dispatchKind inv ∧ pr = handlerPrompt inv ∧
    m = inv.modelName ∧ t = inv.temperature ∧ p = inv.topProbability ∧
    cid = chatIdArg inv ∧ ca = inv.cache := by
  cases hc : configCheck inv with
  | some e => simp [main_error inv e hc] at h
  | none =>
    refine ⟨rfl, ?_⟩
    simp only [main, hc] at h
    split_ifs at h <;> cases he : inv.editor <;> simp [he] at h <;> tauto

/-- A run of `main` invokes at most one handler, and exactly one when no
configuration check failed. -/
theorem handlerCount_main (inv : Invocation) :
    handlerCount (main inv) = (if configCheck inv = none then 1 else 0) := by
  cases hc : configCheck inv with
  | some e => simp [handlerCount, main_error inv e hc, isHandlerEvent]
  | none =>
    simp only [main, hc, if_pos]
    split_ifs <;> cases he : inv.editor <;>
      simp [handlerCount, he, isHandlerEvent, List.countP_cons, List.countP_append]

/-- When no configuration check failed, none of the four checked conflicts
held; in particular the editor flag was not combined with piped stdin. -/
theorem configCheck_none_editor (inv : Invocation) (h : configCheck inv = none) :
    (inv.editor && stdinPassed inv) = false := by
  unfold configCheck at h
  split_ifs at h with h1 h2 h3 h4
  simp_all

/-- Claim C1, corrected: when both `shell` and `code` are set, the program
raises a configuration error before constructing a client or invoking any
handler — the shell/code bad-argument-usage error, except when the effective
prompt is missing (and neither editor nor repl is set), in which case the
earlier missing-parameter check fires instead (app.py lines 95-99). -/
theorem claim1_shell_code_rejected (inv : Invocation) (hs : inv.shell = true)
    (hc : inv.code = true) :
    (main inv).result = Result.configError
      (if !strOptTruthy (effPrompt inv) && !inv.editor && !strOptTruthy inv.repl then
        ConfigError.missingParameter
      else ConfigError.badShellCode) ∧
    Event.clientConstructed ∉ (main inv).events ∧
    ∀ k pr m t p cid ca, Event.handlerInvoked k pr m t p cid ca ∉ (main inv).events := by
  have hcc : configCheck inv = some
      (if !strOptTruthy (effPrompt inv) && !inv.editor && !strOptTruthy inv.repl then
        ConfigError.missingParameter
      else ConfigError.badShellCode) := by
    by_cases h1 : (!strOptTruthy (effPrompt inv) && !inv.editor && !strOptTruthy inv.repl) = true
    · simp [configCheck, h1]
    · have h1f : (!strOptTruthy (effPrompt inv) && !inv.editor && !strOptTruthy inv.repl)
          = false := by
        simpa using h1
      simp [configCheck, h1f, hs, hc]
  rw [main_error inv _ hcc]
  simp

/-- Claim C1 as stated is false: with both `shell` and `code` set but no
prompt, the raised configuration error is click's `MissingParameter`
(app.py line 96), not a bad-argument-usage error. -/
theorem claim1_counterexample :
    invC1x.shell = true ∧ invC1x.code = true ∧
    (main invC1x).result = Result.configError ConfigError.missingParameter ∧
    ConfigError.isBadArgumentUsage ConfigError.missingParameter = false := by
  decide

/-- Witness for claim C1 at a concrete invocation with a prompt present. -/
theorem claim1_witness :
    invC1w.shell = true ∧ invC1w.code = true ∧
    ((main invC1w).result = Result.configError
        (if !strOptTruthy (effPrompt invC1w) && !invC1w.editor && !strOptTruthy invC1w.repl then
          ConfigError.missingParameter
        else ConfigError.badShellCode) ∧
      Event.clientConstructed ∉ (main invC1w).events ∧
      ∀ k pr m t p cid ca, Event.handlerInvoked k pr m t p cid ca ∉ (main invC1w).events) :=
  ⟨rfl, rfl, claim1_shell_code_rejected invC1w rfl rfl⟩

/-- Claim C2, corrected: every invocation runs at most one Output Handler
variant, and an invocation that raises no configuration error runs exactly
one, the variant picked by the mode flags (repl, else chat, else default);
but an invocation that raises a configuration error runs none, so "every
invocation invokes exactly one handler" fails on error paths. -/
theorem claim2_single_handler_dispatch (inv : Invocation) :
    handlerCount (main inv) ≤ 1 ∧
    ((∀ e, (main inv).result ≠ Result.configError e) →
      handlerCount (main inv) = 1 ∧
        ∀ k pr m t p cid ca, Event.handlerInvoked k pr m t p cid ca ∈ (main inv).events →
          k = dispatchKind inv) := by
  constructor
  · rw [handlerCount_main]
    split_ifs <;> omega
  · intro hne
    have hcc : configCheck inv = none := by
      cases hc : configCheck inv with
      | some e => exact absurd (by rw [main_error inv e hc]) (hne e)
      | none => rfl
    refine ⟨by rw [handlerCount_main, hcc]; simp, ?_⟩
    intro k pr m t p cid ca h
    exact (handlerInvoked_mem inv k pr m t p cid ca h).2.1

/-- Claim C2 as stated is false: the invocation with no prompt at all raises
a configuration error and invokes zero Output Handler variants, not exactly
one. -/
theorem claim2_counterexample :
    handlerCount (main invC2x) = 0 := by
  decide

/-- Witness for claim C2 at a concrete error-free chat invocation. -/
theorem claim2_witness :
    (∀ e, (main invC2w).result ≠ Result.configError e) ∧
    handlerCount (main invC2w) = 1 := by
  have hne : ∀ e, (main invC2w).result ≠ Result.configError e := by
    intro e
    cases e <;> decide
  exact ⟨hne, ((claim2_single_handler_dispatch invC2w).2 hne).1⟩

/-- Claim C3, confirmed: the completion text is executed as a shell command
exactly when shell mode is set, the confirmation prompt was shown and the
user answered affirmatively; and when the prompt was shown and the user
declined, nothing is executed and the invocation returns normally
(app.py lines 143-144). -/
theorem claim3_shell_execution_iff_confirmed (inv : Invocation) :
    ((∃ c, Event.commandExecuted c ∈ (main inv).events) ↔
      (inv.shell = true ∧ Event.confirmShown ∈ (main inv).events ∧ inv.confirmAnswer = true)) ∧
    (Event.confirmShown ∈ (main inv).events → inv.confirmAnswer = false →
      (∀ c, Event.commandExecuted c ∉ (main inv).events) ∧ (main inv).result = Result.ok) := by
  cases hc : configCheck inv with
  | some e => simp [main_error inv e hc]
  | none =>
    simp only [main, hc]
    split_ifs with h1 h2 h3 <;> cases he : inv.editor <;> simp_all [stdinPassed]

/-- Witness for claim C3 at a concrete shell-mode invocation on a terminal
whose user declines the confirmation prompt. -/
theorem claim3_witness :
    Event.confirmShown ∈ (main invC3w).events ∧ invC3w.confirmAnswer = false ∧
    ((∀ c, Event.commandExecuted c ∉ (main invC3w).events) ∧
      (main invC3w).result = Result.ok) := by
  have hmem : Event.confirmShown ∈ (main invC3w).events := by decide
  exact ⟨hmem, rfl, (claim3_shell_execution_iff_confirmed invC3w).2 hmem rfl⟩

/-- Claim C4, confirmed: an invocation that raises a configuration error
produces only the raised error — no Completion Client is constructed and no
Output Handler is invoked, so no network call is made and nothing is
persisted or cached (app.py lines 95-112). -/
theorem claim4_config_error_precedes_client (inv : Invocation) (e : ConfigError)
    (h : (main inv).result = Result.configError e) :
    (main inv).events = [Event.errorRaised e] ∧
    Event.clientConstructed ∉ (main inv).events ∧
    ∀ k pr m t p cid ca, Event.handlerInvoked k pr m t p cid ca ∉ (main inv).events := by
  have hc := result_configError inv e h
  rw [main_error inv e hc]
  simp

/-- Witness for claim C4 at a concrete missing-prompt invocation. -/
theorem claim4_witness :
    (main invC4w).result = Result.configError ConfigError.missingParameter ∧
    ((main invC4w).events = [Event.errorRaised ConfigError.missingParameter] ∧
      Event.clientConstructed ∉ (main invC4w).events ∧
      ∀ k pr m t p cid ca, Event.handlerInvoked k pr m t p cid ca ∉ (main invC4w).events) := by
  have hres : (main invC4w).result = Result.configError ConfigError.missingParameter := by
    decide
  exact ⟨hres, claim4_config_error_precedes_client invC4w ConfigError.missingParameter hres⟩

/-- Claim C5, confirmed: when both the chat flag and the repl flag carry
truthy (non-empty) values, the invocation raises a bad-argument-usage
configuration error and ends without invoking any Output Handler
(app.py lines 101-102; when shell and code are also both set, the shell/code
bad-argument-usage error fires first, line 99). -/
theorem claim5_chat_repl_rejected (inv : Invocation)
    (hchat : strOptTruthy inv.chat = true) (hrepl : strOptTruthy inv.repl = true) :
    ∃ e, ConfigError.isBadArgumentUsage e = true ∧
      (main inv).result = Result.configError e ∧
      (main inv).events = [Event.errorRaised e] := by
  by_cases hsc : (inv.shell && inv.code) = true
  · refine ⟨ConfigError.badShellCode, rfl, ?_⟩
    have hcc : configCheck inv = some ConfigError.badShellCode := by
      simp [configCheck, hrepl, hsc]
    rw [main_error inv _ hcc]
    exact ⟨rfl, rfl⟩
  · refine ⟨ConfigError.badChatRepl, rfl, ?_⟩
    have hcc : configCheck inv = some ConfigError.badChatRepl := by
      simp [configCheck, hrepl, hchat, hsc]
    rw [main_error inv _ hcc]
    exact ⟨rfl, rfl⟩

/-- Witness for claim C5 at a concrete invocation carrying both a chat id
and a repl id. -/
theorem claim5_witness :
    strOptTruthy invC5w.chat = true ∧ strOptTruthy invC5w.repl = true ∧
    (∃ e, ConfigError.isBadArgumentUsage e = true ∧
      (main invC5w).result = Result.configError e ∧
      (main invC5w).events = [Event.errorRaised e]) :=
  ⟨by decide, by decide, claim5_chat_repl_rejected invC5w (by decide) (by decide)⟩

/-- Claim C6, confirmed: when the editor flag is set and stdin is piped, the
invocation raises a bad-argument-usage configuration error and ends without
opening the editor or invoking any Output Handler (app.py lines 104-108;
an earlier bad-argument-usage check may fire first, lines 99-102). -/
theorem claim6_editor_stdin_rejected (inv : Invocation)
    (hed : inv.editor = true) (ht : inv.stdinIsTty = false) :
    ∃ e, ConfigError.isBadArgumentUsage e = true ∧
      (main inv).result = Result.configError e ∧
      (main inv).events = [Event.errorRaised e] ∧
      Event.editorOpened ∉ (main inv).events ∧
      ∀ k pr m t p cid ca, Event.handlerInvoked k pr m t p cid ca ∉ (main inv).events := by
  by_cases hsc : (inv.shell && inv.code) = true
  · refine ⟨ConfigError.badShellCode, rfl, ?_⟩
    have hcc : configCheck inv = some ConfigError.badShellCode := by
      simp [configCheck, hed, hsc]
    rw [main_error inv _ hcc]
    simp
  · by_cases hcr : (strOptTruthy inv.chat && strOptTruthy inv.repl) = true
    · refine ⟨ConfigError.badChatRepl, rfl, ?_⟩
      have hcc : configCheck inv = some ConfigError.badChatRepl := by
        simp [configCheck, hed, hsc, hcr]
      rw [main_error inv _ hcc]
      simp
    · refine ⟨ConfigError.badEditorStdin, rfl, ?_⟩
      have hcc : configCheck inv = some ConfigError.badEditorStdin := by
        simp [configCheck, hed, hsc, hcr, stdinPassed, ht]
      rw [main_error inv _ hcc]
      simp

/-- Witness for claim C6 at a concrete editor invocation with piped stdin. -/
theorem claim6_witness :
    invC6w.editor = true ∧ invC6w.stdinIsTty = false ∧
    (∃ e, ConfigError.isBadArgumentUsage e = true ∧
      (main invC6w).result = Result.configError e ∧
      (main invC6w).events = [Event.errorRaised e] ∧
      Event.editorOpened ∉ (main invC6w).events ∧
      ∀ k pr m t p cid ca, Event.handlerInvoked k pr m t p cid ca ∉ (main invC6w).events) :=
  ⟨rfl, rfl, claim6_editor_stdin_rejected invC6w rfl rfl⟩

/-- Claim C7, confirmed: with an empty effective prompt (falsy prompt
argument and stdin a terminal) and neither editor nor repl set, the
invocation raises click's missing-parameter error and ends before any
client is constructed (app.py lines 95-96). -/
theorem claim7_missing_prompt_rejected (inv : Invocation)
    (hp : strOptTruthy inv.promptArg = false) (ht : inv.stdinIsTty = true)
    (hed : inv.editor = false) (hr : strOptTruthy inv.repl = false) :
    (main inv).result = Result.configError ConfigError.missingParameter ∧
    (main inv).events = [Event.errorRaised ConfigError.missingParameter] ∧
    Event.clientConstructed ∉ (main inv).events := by
  have heff : effPrompt inv = inv.promptArg := by
    simp [effPrompt, stdinPassed, ht]
  have hcc : configCheck inv = some ConfigError.missingParameter := by
    simp [configCheck, heff, hp, hed, hr]
  rw [main_error inv _ hcc]
  simp

/-- Witness for claim C7 at a concrete invocation with no prompt. -/
theorem claim7_witness :
    strOptTruthy invC7w.promptArg = false ∧ invC7w.stdinIsTty = true ∧
    invC7w.editor = false ∧ strOptTruthy invC7w.repl = false ∧
    ((main invC7w).result = Result.configError ConfigError.missingParameter ∧
      (main invC7w).events = [Event.errorRaised ConfigError.missingParameter] ∧
      Event.clientConstructed ∉ (main invC7w).events) :=
  ⟨rfl, rfl, rfl, rfl, claim7_missing_prompt_rejected invC7w rfl rfl rfl rfl⟩

/-- Claim C8, confirmed: every handler invocation reached through the
argument-parsing step carries a temperature in [0, 1] and a top-probability
in [1/10, 1], and a command-line value outside either range is rejected at
parsing, before `main` runs (app.py lines 35-45). -/
theorem claim8_request_bounds (inv : Invocation) :
    (∀ r, parseAndRun inv = Except.ok r →
      ∀ k pr m t p cid ca, Event.handlerInvoked k pr m t p cid ca ∈ r.events →
        0 ≤ t ∧ t ≤ 1 ∧ 1/10 ≤ p ∧ p ≤ 1) ∧
    ((¬ (0 ≤ inv.temperature ∧ inv.temperature ≤ 1)) ∨
        (¬ (1/10 ≤ inv.topProbability ∧ inv.topProbability ≤ 1)) →
      ∃ err, parseAndRun inv = Except.error err) := by
  constructor
  · intro r hr k pr m t p cid ca hmem
    unfold parseAndRun at hr
    split_ifs at hr with h1 h2
    have hrr : r = main inv := by
      cases hr
      rfl
    rw [hrr] at hmem
    obtain ⟨-, -, -, -, hteq, hpeq, -, -⟩ := handlerInvoked_mem inv k pr m t p cid ca hmem
    rw [hteq, hpeq]
    exact ⟨h1.1, h1.2, h2.1, h2.2⟩
  · intro h
    rcases h with h | h
    · exact ⟨ParseError.temperatureOutOfRange, by unfold parseAndRun; rw [if_pos h]⟩
    · by_cases h1 : (0 ≤ inv.temperature ∧ inv.temperature ≤ 1)
      · exact ⟨ParseError.topProbabilityOutOfRange, by
          unfold parseAndRun
          rw [if_neg (not_not_intro h1), if_pos h]⟩
      · exact ⟨ParseError.temperatureOutOfRange, by unfold parseAndRun; rw [if_pos h1]⟩

/-- Witness for claim C8 at a concrete invocation with temperature 1/10 and
top-probability 1. -/
theorem claim8_witness :
    parseAndRun invC8w = Except.ok (main invC8w) ∧
    Event.handlerInvoked HandlerKind.default (some "hello") "gpt-3.5-turbo" (1/10) 1 none true
      ∈ (main invC8w).events ∧
    (0 ≤ (1/10 : ℚ) ∧ (1/10 : ℚ) ≤ 1 ∧ (1/10 : ℚ) ≤ (1/10 : ℚ) ∧ (1 : ℚ) ≤ 1) := by
  have hparse : parseAndRun invC8w = Except.ok (main invC8w) := by
    unfold parseAndRun
    norm_num [invC8w]
  have hrun : main invC8w =
      ⟨[Event.clientConstructed,
        Event.handlerInvoked HandlerKind.default (some "hello") "gpt-3.5-turbo" (1/10) 1 none
          true], Result.ok⟩ := by
    rfl
  have hmem : Event.handlerInvoked HandlerKind.default (some "hello") "gpt-3.5-turbo" (1/10) 1
      none true ∈ (main invC8w).events := by
    rw [hrun]
    simp
  refine ⟨hparse, hmem, ?_⟩
  have h := ((claim8_request_bounds invC8w).1 (main invC8w) hparse HandlerKind.default
    (some "hello") "gpt-3.5-turbo" (1/10) 1 none true hmem)
  exact ⟨h.1, h.2.1, le_refl _, h.2.2.2⟩

/-- Claim C9, confirmed: when stdin is piped and the repl flag is falsy, the
prompt handed to the invoked Output Handler is the stdin text followed by
the prompt argument (app.py lines 92-93); when the repl flag is truthy the
prompt is untouched by stdin — it is the prompt argument, or the editor's
text when the editor flag is set. -/
theorem claim9_stdin_prompt_concat (inv : Invocation) (k : HandlerKind) (pr : Option String)
    (m : String) (t p : ℚ) (cid : Option String) (ca : Bool)
    (h : Event.handlerInvoked k pr m t p cid ca ∈ (main inv).events) :
    (inv.stdinIsTty = false → strOptTruthy inv.repl = false →
      pr = some (inv.stdinContent ++ inv.promptArg.getD "")) ∧
    (strOptTruthy inv.repl = true →
      pr = (if inv.editor = true then some inv.editedPrompt else inv.promptArg)) := by
  obtain ⟨hcc, -, hpr, -, -, -, -, -⟩ := handlerInvoked_mem inv k pr m t p cid ca h
  constructor
  · intro ht hr
    have hfalse := configCheck_none_editor inv hcc
    have hed : inv.editor = false := by
      simp [stdinPassed, ht] at hfalse
      exact hfalse
    rw [hpr]
    simp [handlerPrompt, hed, effPrompt, stdinPassed, ht, hr]
  · intro hr
    rw [hpr]
    cases hed : inv.editor <;> simp [handlerPrompt, hed, effPrompt, hr]

/-- Witness for claim C9 at a concrete invocation with piped stdin text
"piped input " and prompt argument "explain". -/
theorem claim9_witness :
    Event.handlerInvoked HandlerKind.default (some "piped input explain") "gpt-3.5-turbo"
      (1/10) 1 none true ∈ (main invC9w).events ∧
    invC9w.stdinIsTty = false ∧ strOptTruthy invC9w.repl = false ∧
    some "piped input explain" = some (invC9w.stdinContent ++ invC9w.promptArg.getD "") := by
  have hrun : main invC9w =
      ⟨[Event.clientConstructed,
        Event.handlerInvoked HandlerKind.default (some "piped input explain") "gpt-3.5-turbo"
          (1/10) 1 none true], Result.ok⟩ := by
    rfl
  have hmem : Event.handlerInvoked HandlerKind.default (some "piped input explain")
      "gpt-3.5-turbo" (1/10) 1 none true ∈ (main invC9w).events := by
    rw [hrun]
    simp
  exact ⟨hmem, rfl, rfl,
    (claim9_stdin_prompt_concat invC9w HandlerKind.default (some "piped input explain")
      "gpt-3.5-turbo" (1/10) 1 none true hmem).1 rfl rfl⟩

/-- Claim C10, confirmed: in shell mode with piped stdin the confirmation
prompt is never shown and no command is ever executed, whatever the
completion text and whatever the user would have answered (app.py
lines 143-144, guarded by `not stdin_passed`). -/
theorem claim10_no_exec_on_piped_stdin (inv : Invocation)
    (hs : inv.shell = true) (ht : inv.stdinIsTty = false) :
    Event.confirmShown ∉ (main inv).events ∧
    ∀ c, Event.commandExecuted c ∉ (main inv).events := by
  cases hc : configCheck inv with
  | some e => simp [main_error inv e hc]
  | none =>
    simp only [main, hc]
    split_ifs with h1 h2 <;> cases he : inv.editor <;> simp_all [stdinPassed]

/-- Witness for claim C10 at a concrete shell-mode invocation with piped
stdin and a user who would have confirmed. -/
theorem claim10_witness :
    invC10w.shell = true ∧ invC10w.stdinIsTty = false ∧ invC10w.confirmAnswer = true ∧
    (Event.confirmShown ∉ (main invC10w).events ∧
      ∀ c, Event.commandExecuted c ∉ (main invC10w).events) :=
  ⟨rfl, rfl, rfl, claim10_no_exec_on_piped_stdin invC10w rfl rfl⟩

end SGpt
